import Mathlib

/-!
Verification of the trip-planner route-synthesis pipeline
(`src/server/controllers/tripController.js`) against its specification.

The JavaScript source is shallowly embedded: coordinates produced by the
LLM proposer are rational pairs, service-side geometry is real pairs,
floating-point transcendental arithmetic (`Math.sin`, `Math.acos`, ...) is
modelled by the corresponding real functions, and the external services
(Groq LLM, ORS snap / directions) are oracles passed in as parameters.
-/

namespace TripPlanner

/-! ## Geometry: colinearity heuristic (`isStraightLine`, lines 575-613) -/

/-- A waypoint-like point with numeric `lat`/`lng`, as consumed by
`isStraightLine`. -/
structure Pt where
  lat : ℚ
  lng : ℚ
deriving DecidableEq

/-- Difference vector used in `isStraightLine`:
`{ x: curr.lat - prev.lat, y: curr.lng - prev.lng }`. -/
def vsub (curr prev : Pt) : ℚ × ℚ :=
  (curr.lat - prev.lat, curr.lng - prev.lng)

/-- Squared euclidean length of a difference vector (`v.x ** 2 + v.y ** 2`). -/
def sqLen (v : ℚ × ℚ) : ℚ :=
  v.1 ^ 2 + v.2 ^ 2

/-- Dot product `v1.x * v2.x + v1.y * v2.y`. -/
def dotQ (v w : ℚ × ℚ) : ℚ :=
  v.1 * w.1 + v.2 * w.2

/-- Vector length `Math.sqrt(v.x ** 2 + v.y ** 2)`. -/
noncomputable def vecLen (v : ℚ × ℚ) : ℝ :=
  Real.sqrt ((sqLen v : ℚ) : ℝ)

/-- The source's angle in degrees between two segment vectors:
`Math.acos(Math.max(-1, Math.min(1, cosTheta))) * (180 / Math.PI)` where
`cosTheta = dot / (len1 * len2)`. -/
noncomputable def turnAngleDeg (v w : ℚ × ℚ) : ℝ :=
  Real.arccos (max (-1) (min 1 (((dotQ v w : ℚ) : ℝ) / (vecLen v * vecLen w)))) *
    (180 / Real.pi)

/-- Consecutive interior triples `(prev, curr, next)` visited by the loop
`for (let i = 1; i < points.length - 1; i++)`. -/
def interiorTriples : List Pt → List (Pt × Pt × Pt)
  | a :: b :: c :: rest => (a, b, c) :: interiorTriples (b :: c :: rest)
  | _ => []

/-- The `len1 === 0 || len2 === 0` skip guard: a triple is evaluated only when
both adjacent segments have nonzero length.  Over the reals
`Math.sqrt(q) === 0` iff `q = 0` for the nonnegative `q` at hand, so the test
is taken on the rational squared lengths (see `vecLen_eq_zero_iff`). -/
def nondegTriple (t : Pt × Pt × Pt) : Bool :=
  decide (sqLen (vsub t.2.1 t.1) ≠ 0) && decide (sqLen (vsub t.2.2 t.2.1) ≠ 0)

/-- The `angle > 170` test on an evaluated triple. -/
def straightTriple (t : Pt × Pt × Pt) : Prop :=
  170 < turnAngleDeg (vsub t.2.1 t.1) (vsub t.2.2 t.2.1)

/-- Count of evaluated (non-degenerate) interior angles (`totalAngles`). -/
def totalAngles (ps : List Pt) : ℕ :=
  ((interiorTriples ps).filter nondegTriple).length

open Classical in
/-- Count of evaluated angles exceeding 170 degrees (`straightAngles`). -/
noncomputable def straightAngles (ps : List Pt) : ℕ :=
  (((interiorTriples ps).filter nondegTriple).filter
    (fun t => decide (straightTriple t))).length

/-- Embedding of `isStraightLine` (lines 575-613): with fewer than 3 points
returns false; otherwise true iff some angles were evaluated and more than 70%
of them exceeded 170 degrees. -/
def isStraightLine (ps : List Pt) : Prop :=
  if ps.length < 3 then False
  else 0 < totalAngles ps ∧
    (0.7 : ℝ) < (straightAngles ps : ℝ) / (totalAngles ps : ℝ)

/-- Bridge for the skip guard: the real segment length is zero exactly when the
rational squared length is zero. -/
theorem vecLen_eq_zero_iff (v : ℚ × ℚ) : vecLen v = 0 ↔ sqLen v = 0 := by
  unfold vecLen
  rw [show ((sqLen v : ℚ) : ℝ) = ((sqLen v : ℚ) : ℝ) from rfl]
  constructor
  · intro h
    have h0 : (0 : ℝ) ≤ ((sqLen v : ℚ) : ℝ) := by
      have : (0 : ℚ) ≤ sqLen v := by
        unfold sqLen; positivity
      exact_mod_cast this
    have := (Real.sqrt_eq_zero h0).mp h
    exact_mod_cast this
  · intro h
    rw [h]
    simp [Real.sqrt_zero]

/-! ## Waypoint validation (`isWaypointsValid`, lines 535-572) -/

/-- A dynamically-typed JS value as far as the validator observes it:
either a finite number or some value whose `typeof` is not `'number'`.
(JS `NaN`/`Infinity` fail the subsequent bound checks just as any
out-of-range number does, so the numeric case carries a rational.) -/
inductive JVal where
  | num (q : ℚ)
  | nonnum
deriving DecidableEq

/-- The numeric value of a `JVal`; only ever used after the `typeof` guard
has established that the value is a number. -/
def JVal.toQ : JVal → ℚ
  | .num q => q
  | .nonnum => 0

/-- A proposer-produced waypoint object (`{lat, lng, name}`; the name plays
no role in validation or routing and is omitted). -/
structure Waypoint where
  lat : JVal
  lng : JVal
deriving DecidableEq

/-- The per-waypoint check of `isWaypointsValid`:
`typeof wp.lat === 'number' && typeof wp.lng === 'number' &&
Math.abs(wp.lat) <= 90 && Math.abs(wp.lng) <= 180 &&
!(Math.abs(wp.lat) < 0.5 && Math.abs(wp.lng) < 0.5)`. -/
def wpOk (wp : Waypoint) : Bool :=
  match wp.lat, wp.lng with
  | .num a, .num b =>
      decide (|a| ≤ 90) && decide (|b| ≤ 180) &&
        !(decide (|a| < 0.5) && decide (|b| < 0.5))
  | _, _ => false

/-- View of a waypoint as the plain numeric point handed to
`isStraightLine` (which reads `.lat`/`.lng` directly; within
`isWaypointsValid` it is only reached once every field is numeric). -/
def toPt (wp : Waypoint) : Pt :=
  { lat := wp.lat.toQ, lng := wp.lng.toQ }

/-- Embedding of `isWaypointsValid` (lines 535-572).  The JS guard
`!waypoints || !Array.isArray(waypoints)` is discharged by typing the
argument as a list. -/
def isWaypointsValid (ws : List Waypoint) : Prop :=
  if ws.length < 3 then False
  else if !(ws.all wpOk) then False
  else ¬ isStraightLine (ws.map toPt)

/-! ## Haversine distance (`haversineMetersLonLat`, lines 58-69) -/

/-- Degrees to radians: `d => (d * Math.PI) / 180`. -/
noncomputable def toRad (d : ℝ) : ℝ :=
  d * Real.pi / 180

/-- Haversine distance in meters between two `[lon, lat]` pairs
(lines 60-69). -/
noncomputable def haversineMetersLonLat (a b : ℝ × ℝ) : ℝ :=
  let lon1 := a.1
  let lat1 := a.2
  let lon2 := b.1
  let lat2 := b.2
  let R : ℝ := 6371000
  let dLat := toRad (lat2 - lat1)
  let dLon := toRad (lon2 - lon1)
  let la1 := toRad lat1
  let la2 := toRad lat2
  let h := Real.sin (dLat / 2) ^ 2 +
    Real.cos la1 * Real.cos la2 * Real.sin (dLon / 2) ^ 2
  2 * R * Real.arcsin (Real.sqrt h)

/-- The distance from a point to itself is zero (numeric-stability fact the
spec relies on; also used to evaluate witnesses on degenerate geometries). -/
theorem haversine_self (a : ℝ × ℝ) : haversineMetersLonLat a a = 0 := by
  unfold haversineMetersLonLat toRad
  simp

/-! ## Snapper (`snapWaypoints`, lines 122-156) -/

/-- Outcome of the ORS snap call as observed by the code: either the
transport/service layer erred (axios threw), or a body arrived whose
`locations` field is a possibly-missing list of
`item?.location || null` entries. -/
inductive SnapReply where
  | transportErr
  | ok (locations : Option (List (Option (ℝ × ℝ))))

/-- Embedding of `snapWaypoints` (lines 122-156).  The count/null check
(lines 144-146) throws inside the `try`, so its error — like any transport
or service error — is caught and re-raised as the generic `'Snap failed'`;
the function never returns the unsnapped input and never a partial batch. -/
def snapWaypoints (waypoints : List Waypoint) (reply : SnapReply) :
    Except String (List (ℝ × ℝ)) :=
  match reply with
  | .transportErr => .error "Snap failed"
  | .ok locations =>
    let locs := waypoints.map (fun wp => (wp.lng.toQ, wp.lat.toQ))
    let snapped := locations.getD []
    if snapped.length ≠ locs.length ∨ snapped.any (fun p => p.isNone) then
      .error "Snap failed"
    else
      .ok snapped.reduceOption

/-! ## Trip types and loop closure (lines 170-176) -/

/-- The two supported trip types. -/
inductive TripType where
  | hiking
  | cycling
deriving DecidableEq

/-- Embedding of the loop-closure step (lines 171-176): for cycling with more
than one snapped coordinate, if the haversine distance from the first to the
last coordinate exceeds 100 m, the first coordinate is appended. -/
noncomputable def closeLoop (tripType : TripType) (coordinates : List (ℝ × ℝ)) :
    List (ℝ × ℝ) :=
  if tripType = .cycling ∧ 1 < coordinates.length then
    let start := coordinates.getD 0 (0, 0)
    let last := coordinates.getD (coordinates.length - 1) (0, 0)
    if 100 < haversineMetersLonLat start last then coordinates ++ [start]
    else coordinates
  else coordinates

/-! ## Route synthesis (`generateRouteWithOpenRouteService`, lines 163-321) -/

/-- The parts of the directions-service GeoJSON feature the synthesizer
reads: `geometry.coordinates` (as `[lon, lat]` pairs) and the optional
`properties.summary.distance` / `summary.duration` / `ascent` / `descent`. -/
structure Feature where
  coordinates : List (ℝ × ℝ)
  summaryDistance : Option ℝ
  summaryDuration : Option ℝ
  ascent : Option ℝ
  descent : Option ℝ

/-- JS truthiness fallback `x || y` specialised to the numbers flowing
through the synthesizer (`0` is falsy; `undefined` is modelled by
`Option.getD 0` before this is applied). -/
noncomputable def jsOr (x y : ℝ) : ℝ :=
  if x = 0 then y else x

/-- Running-sum tail for `cumDistances`. -/
noncomputable def cumAux (prev : ℝ × ℝ) (acc : ℝ) : List (ℝ × ℝ) → List ℝ
  | [] => []
  | c :: rest =>
    (acc + haversineMetersLonLat prev c) ::
      cumAux c (acc + haversineMetersLonLat prev c) rest

/-- Cumulative along-path distance at each geometry vertex (lines 238-241):
`cum[0] = 0`, `cum[i] = cum[i-1] + haversine(coords[i-1], coords[i])`.
The JS array is initialised to `[0]`, so it is `[0]` even for an empty
coordinate list. -/
noncomputable def cumDistances : List (ℝ × ℝ) → List ℝ
  | [] => [0]
  | c :: rest => 0 :: cumAux c 0 rest

/-- JS `Array.prototype.findIndex` specialised to the predicate
`v => v >= target`: index of the first qualifying element, `-1` if none. -/
noncomputable def findIdxGe (target : ℝ) : List ℝ → Int
  | [] => -1
  | v :: rest =>
    if target ≤ v then 0
    else
      let r := findIdxGe target rest
      if r = -1 then -1 else r + 1

/-- Embedding of the split-index computation (lines 244-246):
`let splitIdx = Math.max(1, cum.findIndex(v => v >= total/2));
 if (splitIdx === -1) splitIdx = Math.floor(coords.length / 2);`
Note the clamp to at least 1 happens before the `-1` test, so the
midpoint-default branch is unreachable. -/
noncomputable def splitIndex (cum : List ℝ) (total : ℝ) (n : ℕ) : Int :=
  let s : Int := max 1 (findIdxGe (total / 2) cum)
  if s = -1 then ((n / 2 : ℕ) : Int) else s

/-- A path vertex as returned to the client: coordinate, assigned day and
sequential order (lines 249-255). -/
structure RoutePoint where
  lat : ℝ
  lng : ℝ
  day : ℕ
  order : ℕ

/-- Per-day elevation summary. -/
structure Elevation where
  gain : ℝ
  loss : ℝ

/-- One day's segment of the synthesized route. -/
structure DailyRoute where
  day : ℕ
  distance : ℝ
  duration : ℝ
  elevation : Elevation
  points : List RoutePoint

/-- The value returned by the synthesizer (lines 301-311).  `geometry`
carries the raw coordinate list of the returned GeoJSON geometry. -/
structure RouteResult where
  geometry : List (ℝ × ℝ)
  points : List RoutePoint
  dailyRoutes : List DailyRoute
  totalDistance : ℝ
  totalDuration : ℝ
  totalElevation : Elevation

/-- The point-building loop (lines 249-255): vertex `i` (0-based, counting
from `start`) gets `day = cycling ? (i <= splitIdx ? 1 : 2) : 1` and
`order = i`. -/
def buildPoints (tripType : TripType) (splitIdx : Int) :
    List (ℝ × ℝ) → ℕ → List RoutePoint
  | [], _ => []
  | c :: rest, i =>
    { lat := c.2, lng := c.1,
      day := if tripType = .cycling then (if (i : Int) ≤ splitIdx then 1 else 2) else 1,
      order := i } :: buildPoints tripType splitIdx rest (i + 1)

/-- `totalGeomMeters = cum[cum.length - 1] || (properties.summary?.distance || 0)`
(line 242). -/
noncomputable def synthTotalGeom (f : Feature) : ℝ :=
  jsOr ((cumDistances f.coordinates).getLastD 0) (f.summaryDistance.getD 0)

/-- The synthesizer's split index for a feature (lines 244-246). -/
noncomputable def synthSplitIdx (f : Feature) : Int :=
  splitIndex (cumDistances f.coordinates) (synthTotalGeom f) f.coordinates.length

/-- `totalMeters = properties.summary?.distance || totalGeomMeters` (line 258). -/
noncomputable def synthTotalMeters (f : Feature) : ℝ :=
  jsOr (f.summaryDistance.getD 0) (synthTotalGeom f)

/-- `totalSec = properties.summary?.duration || 0` (line 259). -/
noncomputable def synthTotalSec (f : Feature) : ℝ :=
  jsOr (f.summaryDuration.getD 0) 0

/-- `properties.ascent || 0`. -/
noncomputable def synthAscent (f : Feature) : ℝ :=
  jsOr (f.ascent.getD 0) 0

/-- `properties.descent || 0`. -/
noncomputable def synthDescent (f : Feature) : ℝ :=
  jsOr (f.descent.getD 0) 0

/-- The synthesized path vertices for a feature. -/
noncomputable def synthPoints (tripType : TripType) (f : Feature) : List RoutePoint :=
  buildPoints tripType (synthSplitIdx f) f.coordinates 0

/-- `day1Meters = cycling ? cum[splitIdx] : totalMeters` (line 261).  The JS
array read `cum[splitIdx]` is modelled with `getD`; for any geometry with at
least two vertices the index is in range (`1 <= splitIdx <= cum.length - 1`)
and the two agree exactly.  Below two vertices the source reads `undefined`
and poisons the daily values with `NaN`, a state the real-valued model
cannot represent, so every theorem about the cycling daily split carries a
two-vertex hypothesis restricting it to the faithful domain. -/
noncomputable def synthDay1Meters (tripType : TripType) (f : Feature) : ℝ :=
  if tripType = .cycling then
    (cumDistances f.coordinates).getD (synthSplitIdx f).toNat 0
  else synthTotalMeters f

/-- `day2Meters = cycling ? totalMeters - day1Meters : 0` (line 262). -/
noncomputable def synthDay2Meters (tripType : TripType) (f : Feature) : ℝ :=
  if tripType = .cycling then synthTotalMeters f - synthDay1Meters tripType f
  else 0

/-- `day1Frac = Math.max(0, Math.min(1, day1Meters / Math.max(totalMeters, 1)))`
(line 264). -/
noncomputable def synthDay1Frac (tripType : TripType) (f : Feature) : ℝ :=
  max 0 (min 1 (synthDay1Meters tripType f / max (synthTotalMeters f) 1))

/-- `day2Frac = 1 - day1Frac` (line 265). -/
noncomputable def synthDay2Frac (tripType : TripType) (f : Feature) : ℝ :=
  1 - synthDay1Frac tripType f

/-- The per-day breakdown (lines 267-298): cycling yields two days with
proportionally split duration/elevation, hiking a single day carrying the
service totals. -/
noncomputable def synthDailyRoutes (tripType : TripType) (f : Feature) :
    List DailyRoute :=
  if tripType = .cycling then
    [ { day := 1,
        distance := synthDay1Meters tripType f / 1000,
        duration := synthTotalSec f * synthDay1Frac tripType f / 3600,
        elevation := { gain := synthAscent f * synthDay1Frac tripType f,
                       loss := synthDescent f * synthDay1Frac tripType f },
        points := (synthPoints tripType f).filter (fun p => p.day == 1) },
      { day := 2,
        distance := synthDay2Meters tripType f / 1000,
        duration := synthTotalSec f * synthDay2Frac tripType f / 3600,
        elevation := { gain := synthAscent f * synthDay2Frac tripType f,
                       loss := synthDescent f * synthDay2Frac tripType f },
        points := (synthPoints tripType f).filter (fun p => p.day == 2) } ]
  else
    [ { day := 1,
        distance := synthTotalMeters f / 1000,
        duration := synthTotalSec f / 3600,
        elevation := { gain := synthAscent f, loss := synthDescent f },
        points := synthPoints tripType f } ]

/-- The pure synthesis core (lines 235-311): from the first feature of the
directions response to the assembled `RouteResult`. -/
noncomputable def synthesizeRoute (tripType : TripType) (f : Feature) : RouteResult :=
  { geometry := f.coordinates,
    points := synthPoints tripType f,
    dailyRoutes := synthDailyRoutes tripType f,
    totalDistance := synthTotalMeters f / 1000,
    totalDuration := synthTotalSec f / 3600,
    totalElevation := { gain := synthAscent f, loss := synthDescent f } }

/-- Outcome of the directions call (after the avoid-ferries capability
probe, which only affects the request body): an error, or a body with a
`features` list. -/
inductive DirectionsReply where
  | err
  | ok (features : List Feature)

/-- Embedding of `generateRouteWithOpenRouteService` (lines 163-321):
snap, close the loop for cycling, call directions on the resulting
coordinates, reject an empty feature list, synthesize.  Every failure is
wrapped in the function's catch-all message. -/
noncomputable def generateRouteWithOpenRouteService
    (waypoints : List Waypoint) (tripType : TripType) (snapReply : SnapReply)
    (directions : List (ℝ × ℝ) → DirectionsReply) :
    Except String RouteResult :=
  match snapWaypoints waypoints snapReply with
  | .error e => .error ("Failed to generate route with OpenRouteService: " ++ e)
  | .ok snapped =>
    let coordinates := closeLoop tripType snapped
    match directions coordinates with
    | .err => .error ("Failed to generate route with OpenRouteService: " ++
        "request failed")
    | .ok features =>
      match features with
      | [] => .error ("Failed to generate route with OpenRouteService: " ++
          "No route found")
      | feature :: _ => .ok (synthesizeRoute tripType feature)

/-! ## Orchestrator (`generateRoute`, lines 71-117) -/

/-- The shape of a proposer result the orchestrator inspects:
`waypointsResponse.waypoints` may be absent. -/
structure WaypointsResponse where
  waypoints : Option (List Waypoint)

/-- Observable events of one orchestrator run: a proposer call with its
attempt number and `isRetry` hint, and the fixed 1000 ms backoff sleeps. -/
inductive OrchEv where
  | proposeCall (attempt : ℕ) (isRetry : Bool)
  | sleep (ms : ℕ)
deriving DecidableEq

open Classical in
/-- The orchestrator's attempt loop (lines 73-113) over the remaining
attempt numbers, instrumented with its externally observable events.
`propose` is the `generateRouteWithAI` call (an oracle keyed by attempt
number and retry hint) and `synth` the `generateRouteWithOpenRouteService`
call. -/
noncomputable def runAttempts (propose : ℕ → Bool → Option WaypointsResponse)
    (synth : List Waypoint → Except String RouteResult) :
    List ℕ → Except String RouteResult × List OrchEv
  | [] => (.error "AI failed to generate realistic waypoints after multiple attempts.",
      [])
  | a :: rest =>
    let isRetry : Bool := decide (1 < a)
    let ev := OrchEv.proposeCall a isRetry
    match propose a isRetry with
    | some resp =>
      match resp.waypoints with
      | some ws =>
        if isWaypointsValid ws then
          match synth ws with
          | .ok route => (.ok route, [ev])
          | .error e =>
            if rest.isEmpty then
              (.error ("Failed to generate route: " ++ e), [ev])
            else
              let next := runAttempts propose synth rest
              (next.1, ev :: OrchEv.sleep 1000 :: next.2)
        else
          if rest.isEmpty then
            (.error "AI failed to generate realistic waypoints after multiple attempts.",
              [ev])
          else
            let next := runAttempts propose synth rest
            (next.1, ev :: OrchEv.sleep 1000 :: next.2)
      | none =>
        if rest.isEmpty then
          (.error "AI failed to generate realistic waypoints after multiple attempts.",
            [ev])
        else
          let next := runAttempts propose synth rest
          (next.1, ev :: OrchEv.sleep 1000 :: next.2)
    | none =>
      if rest.isEmpty then
        (.error "AI failed to generate realistic waypoints after multiple attempts.",
          [ev])
      else
        let next := runAttempts propose synth rest
        (next.1, ev :: OrchEv.sleep 1000 :: next.2)

/-- Embedding of `generateRoute` (lines 71-117): `maxRetries = 3`, attempts
numbered 1 to 3, `isRetry = attempt > 1`. -/
noncomputable def generateRoute (propose : ℕ → Bool → Option WaypointsResponse)
    (synth : List Waypoint → Except String RouteResult) :
    Except String RouteResult × List OrchEv :=
  runAttempts propose synth [1, 2, 3]

/-! ## Proposer JSON extraction and retry (`generateRouteWithAI`, lines 325-532) -/

/-- Method 2's greedy regex match (line 487): the matched substring, when it
exists, runs from the first opening brace to the last closing brace after
it — the largest brace-delimited substring. -/
def extractBraceSubstring (s : String) : Option String :=
  let cs := s.data
  let ob := Char.ofNat 123
  let cb := Char.ofNat 125
  match cs.findIdx? (fun c => c == ob), cs.reverse.findIdx? (fun c => c == cb) with
  | some i, some rj =>
    let j := cs.length - 1 - rj
    if i < j then some ⟨(cs.drop i).take (j - i + 1)⟩ else none
  | _, _ => none

/-- Whitespace class standing for the regex `\s`. -/
def isWs (c : Char) : Bool :=
  c.isWhitespace

/-- Dropping a whitespace run never lengthens a character list (termination
measure for the regex-replacement passes below). -/
theorem length_dropWhile_ws_le {α : Type} (p : α → Bool) :
    ∀ l : List α, (l.dropWhile p).length ≤ l.length
  | [] => le_refl _
  | a :: l => by
    rw [List.dropWhile_cons]
    split
    · exact le_trans (length_dropWhile_ws_le p l) (Nat.le_succ _)
    · exact le_refl _

/-- Method 3, pass 1: `content.replace(/```json\s*/g, '')` — each
fence-with-language marker and the whitespace after it is removed. -/
def stripFenceJson : List Char → List Char
  | [] => []
  | c :: rest =>
    if (c :: rest).take 7 = [Char.ofNat 96, Char.ofNat 96, Char.ofNat 96, 'j', 's', 'o', 'n'] then
      stripFenceJson (((c :: rest).drop 7).dropWhile isWs)
    else
      c :: stripFenceJson rest
termination_by cs => cs.length
decreasing_by
  · have h1 := length_dropWhile_ws_le isWs ((c :: rest).drop 7)
    have h2 : ((c :: rest).drop 7).length = (c :: rest).length - 7 := by
      simp [List.length_drop]
    simp only [List.length_cons] at h2 ⊢
    omega
  · simp

/-- Method 3, pass 2: `content.replace(/```\s*/g, '')`. -/
def stripFence : List Char → List Char
  | [] => []
  | c :: rest =>
    if (c :: rest).take 3 = [Char.ofNat 96, Char.ofNat 96, Char.ofNat 96] then
      stripFence (((c :: rest).drop 3).dropWhile isWs)
    else
      c :: stripFence rest
termination_by cs => cs.length
decreasing_by
  · have h1 := length_dropWhile_ws_le isWs ((c :: rest).drop 3)
    have h2 : ((c :: rest).drop 3).length = (c :: rest).length - 3 := by
      simp [List.length_drop]
    simp only [List.length_cons] at h2 ⊢
    omega
  · simp

/-- Method 3, passes 3 and 4: `replace(/,\s*}/g, '}')` and
`replace(/,\s*]/g, ']')` — a comma followed by whitespace and the closing
character collapses to the closing character. -/
def fixCommaClose (close : Char) (cs : List Char) : List Char :=
  match cs with
  | [] => []
  | c :: rest =>
    if c = ',' ∧ (rest.dropWhile isWs) ≠ [] ∧ (rest.dropWhile isWs).headD close = close
    then close :: fixCommaClose close (rest.dropWhile isWs).tail
    else c :: fixCommaClose close rest
termination_by cs.length
decreasing_by
  · have h1 := length_dropWhile_ws_le isWs rest
    have h2 : ((rest.dropWhile isWs).tail).length = (rest.dropWhile isWs).length - 1 := by
      simp [List.length_tail]
    simp only [List.length_cons]
    omega
  · simp

/-- Method 3's repaired text (lines 500-504). -/
def fixJsonIssues (s : String) : String :=
  ⟨fixCommaClose ']' (fixCommaClose (Char.ofNat 125)
    (stripFence (stripFenceJson s.data)))⟩

/-- The three-stage extraction applied to one response text (lines 474-511),
parameterised over the external `JSON.parse` (`parse`): direct parse; on
failure, parse of the brace-extracted substring when the regex matched; on
failure, parse of the repaired text.  The first stage to succeed wins. -/
def parseStages {J : Type} (parse : String → Option J) (content : String) :
    Option J :=
  match parse content with
  | some r => some r
  | none =>
    match extractBraceSubstring content with
    | some m =>
      match parse m with
      | some r => some r
      | none => parse (fixJsonIssues content)
    | none => parse (fixJsonIssues content)

/-- Observable events of one `generateRouteWithAI` invocation: the LLM
completion calls and the fixed `retryDelay = 1000` ms sleeps between
attempts. -/
inductive AiEv where
  | llmCall (attempt : ℕ)
  | sleep (ms : ℕ)
deriving DecidableEq

/-- The proposer's internal attempt loop (lines 329-528) over the remaining
attempt numbers.  `llm a = none` stands for an attempt whose completion call
threw or produced no content; otherwise the raw response text is trimmed and
run through the extraction stages.  A failed attempt sleeps `1000` ms when
attempts remain, and the whole invocation resolves to `none` after the last
failed attempt (lines 530-531). -/
def aiAttempts {J : Type} (llm : ℕ → Option String) (parse : String → Option J) :
    List ℕ → Option J × List AiEv
  | [] => (none, [])
  | a :: rest =>
    let ev := AiEv.llmCall a
    match llm a with
    | none =>
      if rest.isEmpty then (none, [ev])
      else
        let next := aiAttempts llm parse rest
        (next.1, ev :: AiEv.sleep 1000 :: next.2)
    | some raw =>
      let content := raw.trim
      if content = "" then
        if rest.isEmpty then (none, [ev])
        else
          let next := aiAttempts llm parse rest
          (next.1, ev :: AiEv.sleep 1000 :: next.2)
      else
        match parseStages parse content with
        | some r => (some r, [ev])
        | none =>
          if rest.isEmpty then (none, [ev])
          else
            let next := aiAttempts llm parse rest
            (next.1, ev :: AiEv.sleep 1000 :: next.2)

/-- Embedding of `generateRouteWithAI` (lines 325-532): `maxRetries = 3`,
attempts numbered 1 to 3. -/
def generateRouteWithAI {J : Type} (llm : ℕ → Option String)
    (parse : String → Option J) : Option J × List AiEv :=
  aiAttempts llm parse [1, 2, 3]

/-- An attempt whose generation or extraction fails: no (or empty) content,
or all three parse stages return nothing. -/
def aiFail {J : Type} (llm : ℕ → Option String) (parse : String → Option J)
    (a : ℕ) : Prop :=
  match llm a with
  | none => True
  | some raw => raw.trim = "" ∨ parseStages parse raw.trim = none

/-! ## Claim C1 -/

/-- Helper: the straight-angle count vanishes when no evaluated triple turns
by more than 170 degrees. -/
theorem straightAngles_eq_zero (ps : List Pt)
    (h : ∀ t ∈ (interiorTriples ps).filter nondegTriple, ¬ straightTriple t) :
    straightAngles ps = 0 := by
  unfold straightAngles
  rw [List.length_eq_zero, List.filter_eq_nil_iff]
  intro t ht
  simp only [decide_eq_true_eq]
  exact h t ht

/-- Helper: a zero turn between identical unit vectors. -/
theorem turnAngleDeg_parallel_unit : turnAngleDeg (0, 1) (0, 1) = 0 := by
  unfold turnAngleDeg vecLen sqLen dotQ
  norm_num [Real.sqrt_one, Real.arccos_one]

/-- Helper: a right-angle turn measures 90 degrees. -/
theorem turnAngleDeg_perp_lr : turnAngleDeg (0, 1) (1, 0) = 90 := by
  unfold turnAngleDeg vecLen sqLen dotQ
  norm_num [Real.sqrt_one, Real.arccos_zero]
  field_simp
  ring

/-- Helper: the converse right-angle turn also measures 90 degrees. -/
theorem turnAngleDeg_perp_rl : turnAngleDeg (1, 0) (0, 1) = 90 := by
  unfold turnAngleDeg vecLen sqLen dotQ
  norm_num [Real.sqrt_one, Real.arccos_zero]
  field_simp
  ring

/-- Claim C1 (code evaluation at the failing input): for three exactly
colinear points traversed in order — lat fixed at 10, lng 10, 11, 12 — the
turn angle between successive direction vectors is 0 degrees, never counted
as straight, so `isStraightLine` returns FALSE, contradicting the claim (and
the function's stated purpose); for the right-angle zigzag
(0,0),(0,1),(1,1),(1,2) it returns false as the claim states. -/
theorem c1_isStraightLine_eval :
    ¬ isStraightLine [⟨10, 10⟩, ⟨10, 11⟩, ⟨10, 12⟩] ∧
      ¬ isStraightLine [⟨0, 0⟩, ⟨0, 1⟩, ⟨1, 1⟩, ⟨1, 2⟩] := by
  constructor
  · unfold isStraightLine
    have hA : straightAngles [⟨10, 10⟩, ⟨10, 11⟩, ⟨10, 12⟩] = 0 := by
      apply straightAngles_eq_zero
      intro t ht
      have ht2 : t ∈ interiorTriples [⟨10, 10⟩, ⟨10, 11⟩, ⟨10, 12⟩] :=
        (List.mem_filter.mp ht).1
      rw [show interiorTriples [⟨10, 10⟩, ⟨10, 11⟩, ⟨10, 12⟩] =
          [(⟨10, 10⟩, ⟨10, 11⟩, ⟨10, 12⟩)] from rfl] at ht2
      simp only [List.mem_singleton] at ht2
      subst ht2
      unfold straightTriple
      have hv : vsub (⟨10, 11⟩ : Pt) ⟨10, 10⟩ = (0, 1) := by
        unfold vsub; norm_num
      have hw : vsub (⟨10, 12⟩ : Pt) ⟨10, 11⟩ = (0, 1) := by
        unfold vsub; norm_num
      rw [show ((⟨10, 10⟩, ⟨10, 11⟩, ⟨10, 12⟩) : Pt × Pt × Pt).2.1 = ⟨10, 11⟩ from rfl,
        show ((⟨10, 10⟩, ⟨10, 11⟩, ⟨10, 12⟩) : Pt × Pt × Pt).1 = ⟨10, 10⟩ from rfl,
        show ((⟨10, 10⟩, ⟨10, 11⟩, ⟨10, 12⟩) : Pt × Pt × Pt).2.2 = ⟨10, 12⟩ from rfl,
        hv, hw, turnAngleDeg_parallel_unit]
      norm_num
    have hT : totalAngles [⟨10, 10⟩, ⟨10, 11⟩, ⟨10, 12⟩] = 1 := by
      unfold totalAngles
      rw [show interiorTriples [⟨10, 10⟩, ⟨10, 11⟩, ⟨10, 12⟩] =
          [(⟨10, 10⟩, ⟨10, 11⟩, ⟨10, 12⟩)] from rfl]
      rw [List.filter_cons, List.filter_nil]
      norm_num [nondegTriple, vsub, sqLen]
    rw [hA, hT]
    norm_num
  · unfold isStraightLine
    have hA : straightAngles [⟨0, 0⟩, ⟨0, 1⟩, ⟨1, 1⟩, ⟨1, 2⟩] = 0 := by
      apply straightAngles_eq_zero
      intro t ht
      have ht2 : t ∈ interiorTriples [⟨0, 0⟩, ⟨0, 1⟩, ⟨1, 1⟩, ⟨1, 2⟩] :=
        (List.mem_filter.mp ht).1
      rw [show interiorTriples [⟨0, 0⟩, ⟨0, 1⟩, ⟨1, 1⟩, ⟨1, 2⟩] =
          [(⟨0, 0⟩, ⟨0, 1⟩, ⟨1, 1⟩), (⟨0, 1⟩, ⟨1, 1⟩, ⟨1, 2⟩)] from rfl] at ht2
      simp only [List.mem_cons, List.mem_singleton] at ht2
      rcases ht2 with ht2 | ht2 | ht2
      · subst ht2
        unfold straightTriple
        have hv : vsub (⟨0, 1⟩ : Pt) ⟨0, 0⟩ = (0, 1) := by unfold vsub; norm_num
        have hw : vsub (⟨1, 1⟩ : Pt) ⟨0, 1⟩ = (1, 0) := by unfold vsub; norm_num
        rw [show ((⟨0, 0⟩, ⟨0, 1⟩, ⟨1, 1⟩) : Pt × Pt × Pt).2.1 = ⟨0, 1⟩ from rfl,
          show ((⟨0, 0⟩, ⟨0, 1⟩, ⟨1, 1⟩) : Pt × Pt × Pt).1 = ⟨0, 0⟩ from rfl,
          show ((⟨0, 0⟩, ⟨0, 1⟩, ⟨1, 1⟩) : Pt × Pt × Pt).2.2 = ⟨1, 1⟩ from rfl,
          hv, hw, turnAngleDeg_perp_lr]
        norm_num
      · subst ht2
        unfold straightTriple
        have hv : vsub (⟨1, 1⟩ : Pt) ⟨0, 1⟩ = (1, 0) := by unfold vsub; norm_num
        have hw : vsub (⟨1, 2⟩ : Pt) ⟨1, 1⟩ = (0, 1) := by unfold vsub; norm_num
        rw [show ((⟨0, 1⟩, ⟨1, 1⟩, ⟨1, 2⟩) : Pt × Pt × Pt).2.1 = ⟨1, 1⟩ from rfl,
          show ((⟨0, 1⟩, ⟨1, 1⟩, ⟨1, 2⟩) : Pt × Pt × Pt).1 = ⟨0, 1⟩ from rfl,
          show ((⟨0, 1⟩, ⟨1, 1⟩, ⟨1, 2⟩) : Pt × Pt × Pt).2.2 = ⟨1, 2⟩ from rfl,
          hv, hw, turnAngleDeg_perp_rl]
        norm_num
      · exact absurd ht2 (by simp)
    have hT : totalAngles [⟨0, 0⟩, ⟨0, 1⟩, ⟨1, 1⟩, ⟨1, 2⟩] = 2 := by
      unfold totalAngles
      rw [show interiorTriples [⟨0, 0⟩, ⟨0, 1⟩, ⟨1, 1⟩, ⟨1, 2⟩] =
          [(⟨0, 0⟩, ⟨0, 1⟩, ⟨1, 1⟩), (⟨0, 1⟩, ⟨1, 1⟩, ⟨1, 2⟩)] from rfl]
      rw [List.filter_cons, List.filter_cons, List.filter_nil]
      norm_num [nondegTriple, vsub, sqLen]
    rw [hA, hT]
    norm_num

/-! ## Claim C2 -/

/-- Helper: shape of the per-waypoint boolean check. -/
theorem wpOk_iff (wp : Waypoint) :
    wpOk wp = true ↔
      (∃ a, wp.lat = .num a ∧ |a| ≤ 90) ∧ (∃ b, wp.lng = .num b ∧ |b| ≤ 180) ∧
        ¬(|wp.lat.toQ| < 0.5 ∧ |wp.lng.toQ| < 0.5) := by
  cases hl : wp.lat with
  | nonnum => simp [wpOk, hl]
  | num a =>
    cases hg : wp.lng with
    | nonnum => simp [wpOk, hl, hg]
    | num b =>
      simp only [wpOk, hl, hg, JVal.toQ, Bool.and_eq_true, decide_eq_true_eq,
        Bool.not_eq_true', Bool.and_eq_false_iff, decide_eq_false_iff_not,
        JVal.num.injEq]
      constructor
      · rintro ⟨⟨h90, h180⟩, hz⟩
        refine ⟨⟨a, rfl, h90⟩, ⟨b, rfl, h180⟩, ?_⟩
        rintro ⟨hza, hzb⟩
        rcases hz with h | h
        · exact h hza
        · exact h hzb
      · rintro ⟨⟨a', ha', h90⟩, ⟨b', hb', h180⟩, hz⟩
        cases ha'
        cases hb'
        refine ⟨⟨h90, h180⟩, ?_⟩
        by_cases hza : |a| < 0.5
        · right
          intro hzb
          exact hz ⟨hza, hzb⟩
        · left
          exact hza

/-- Claim C2 (confirmed): `isWaypointsValid` holds exactly when there are at
least 3 waypoints, every waypoint's lat and lng are numbers within ±90/±180
with not both |lat| < 0.5 and |lng| < 0.5, and the set fails
`isStraightLine`. -/
theorem c2_isWaypointsValid_iff (ws : List Waypoint) :
    isWaypointsValid ws ↔
      (3 ≤ ws.length ∧
        (∀ wp ∈ ws,
          (∃ a, wp.lat = .num a ∧ |a| ≤ 90) ∧
          (∃ b, wp.lng = .num b ∧ |b| ≤ 180) ∧
          ¬(|wp.lat.toQ| < 0.5 ∧ |wp.lng.toQ| < 0.5)) ∧
        ¬ isStraightLine (ws.map toPt)) := by
  unfold isWaypointsValid
  rcases Nat.lt_or_ge ws.length 3 with h3 | h3
  · rw [if_pos h3]
    simp only [false_iff]
    rintro ⟨hlen, -, -⟩
    omega
  · rw [if_neg (by omega)]
    by_cases hall : ws.all wpOk = true
    · rw [hall]
      simp only [Bool.not_true, Bool.false_eq_true, if_false, if_neg]
      rw [List.all_eq_true] at hall
      constructor
      · intro hns
        exact ⟨h3, fun wp hwp => (wpOk_iff wp).mp (hall wp hwp), hns⟩
      · rintro ⟨-, -, hns⟩
        exact hns
    · rw [Bool.not_eq_true] at hall
      rw [hall]
      simp only [Bool.not_false, if_true, false_iff]
      rintro ⟨-, hok, -⟩
      rw [Bool.eq_false_iff] at hall
      apply hall
      rw [List.all_eq_true]
      intro wp hwp
      exact (wpOk_iff wp).mpr (hok wp hwp)

/-! ## Claim C3 -/

/-- Claim C3 (confirmed): when every proposer reply is null, lacks a
waypoints field, or carries waypoints failing validation, the orchestrator
performs exactly three proposer calls — the first without and the second and
third with the retry hint, separated by the fixed 1000 ms backoff — then
fails with the exhausted-attempts error; it never makes a fourth call and
never returns a route. -/
theorem c3_generateRoute_exhausts (propose : ℕ → Bool → Option WaypointsResponse)
    (synth : List Waypoint → Except String RouteResult)
    (h : ∀ a b resp, propose a b = some resp →
      ∀ ws, resp.waypoints = some ws → ¬ isWaypointsValid ws) :
    generateRoute propose synth =
      (.error "AI failed to generate realistic waypoints after multiple attempts.",
        [OrchEv.proposeCall 1 false, OrchEv.sleep 1000,
         OrchEv.proposeCall 2 true, OrchEv.sleep 1000,
         OrchEv.proposeCall 3 true]) := by
  have step : ∀ (a : ℕ) (rest : List ℕ),
      runAttempts propose synth (a :: rest) =
        (if rest.isEmpty then
          ((.error "AI failed to generate realistic waypoints after multiple attempts.",
            [OrchEv.proposeCall a (decide (1 < a))]) :
              Except String RouteResult × List OrchEv)
        else
          ((runAttempts propose synth rest).1,
            OrchEv.proposeCall a (decide (1 < a)) :: OrchEv.sleep 1000 ::
              (runAttempts propose synth rest).2)) := by
    intro a rest
    cases hp : propose a (decide (1 < a)) with
    | none => simp only [runAttempts, hp]
    | some resp =>
      cases hw : resp.waypoints with
      | none => simp only [runAttempts, hp, hw]
      | some ws =>
        have hinv : ¬ isWaypointsValid ws := h a (decide (1 < a)) resp hp ws hw
        simp only [runAttempts, hp, hw]
        rw [if_neg hinv]
  unfold generateRoute
  rw [step 1 [2, 3], step 2 [3], step 3 []]
  simp

/-- Claim C3 witness: a proposer stub that always returns null exhausts the
three attempts. -/
theorem c3_generateRoute_exhausts_witness :
    generateRoute (fun _ _ => none) (fun _ => .error "") =
      (.error "AI failed to generate realistic waypoints after multiple attempts.",
        [OrchEv.proposeCall 1 false, OrchEv.sleep 1000,
         OrchEv.proposeCall 2 true, OrchEv.sleep 1000,
         OrchEv.proposeCall 3 true]) :=
  c3_generateRoute_exhausts (fun _ _ => none) (fun _ => .error "")
    (fun a b resp hresp => by cases hresp)

/-! ## Claim C4 -/

/-- Claim C4 (confirmed): whenever the snap service's reply has a location
count different from the input waypoint count or any null entry, the snapper
fails (it returns no coordinate list at all, in particular never a partial
one); and on a transport or service error it fails with the generic
`'Snap failed'` error instead of falling back to the input coordinates. -/
theorem c4_snapWaypoints_all_or_nothing (waypoints : List Waypoint)
    (reply : SnapReply) :
    (∀ locations, reply = .ok locations →
      ((locations.getD []).length ≠ waypoints.length ∨
        (locations.getD []).any (fun p => p.isNone)) →
      snapWaypoints waypoints reply = .error "Snap failed") ∧
    (reply = .transportErr → snapWaypoints waypoints reply = .error "Snap failed") := by
  constructor
  · intro locations hr hbad
    subst hr
    show (if (locations.getD []).length ≠
          (waypoints.map (fun wp => (wp.lng.toQ, wp.lat.toQ))).length ∨
          ((locations.getD []).any fun p => p.isNone) = true then
        (Except.error "Snap failed" : Except String (List (ℝ × ℝ)))
      else Except.ok (locations.getD []).reduceOption) = Except.error "Snap failed"
    rw [if_pos]
    rcases hbad with hlen | hnull
    · left
      rw [List.length_map]
      exact hlen
    · right
      exact hnull
  · intro hr
    subst hr
    rfl

/-- Claim C4 witness: a one-waypoint batch whose only snap entry is null
fails with the generic error. -/
theorem c4_snapWaypoints_all_or_nothing_witness :
    snapWaypoints [⟨.num 1, .num 2⟩] (.ok (some [none])) = .error "Snap failed" :=
  (c4_snapWaypoints_all_or_nothing [⟨.num 1, .num 2⟩] (.ok (some [none]))).1
    (some [none]) rfl (by simp)

/-! ## Claim C8 -/

/-- Claim C8 (confirmed): for cycling with at least two snapped coordinates,
the start coordinate is appended exactly when the haversine distance from the
first to the last coordinate exceeds 100 m, and otherwise the sequence is
unchanged; for hiking the sequence is always unchanged. -/
theorem c8_closeLoop (coordinates : List (ℝ × ℝ)) (h2 : 2 ≤ coordinates.length) :
    (100 < haversineMetersLonLat (coordinates.getD 0 (0, 0))
        (coordinates.getD (coordinates.length - 1) (0, 0)) →
      closeLoop .cycling coordinates = coordinates ++ [coordinates.getD 0 (0, 0)]) ∧
    (haversineMetersLonLat (coordinates.getD 0 (0, 0))
        (coordinates.getD (coordinates.length - 1) (0, 0)) ≤ 100 →
      closeLoop .cycling coordinates = coordinates) ∧
    closeLoop .hiking coordinates = coordinates := by
  refine ⟨?_, ?_, ?_⟩
  · intro hfar
    unfold closeLoop
    rw [if_pos ⟨rfl, by omega⟩, if_pos hfar]
  · intro hnear
    unfold closeLoop
    rw [if_pos ⟨rfl, by omega⟩, if_neg (by exact not_lt.mpr hnear)]
  · unfold closeLoop
    rw [if_neg]
    rintro ⟨hc, -⟩
    cases hc

/-- Helper for the C8 witness: the haversine distance between antipodal
points on the equator is 6371000 times pi meters. -/
theorem haversine_antipodal :
    haversineMetersLonLat ((0 : ℝ), (0 : ℝ)) ((180 : ℝ), (0 : ℝ)) =
      6371000 * Real.pi := by
  unfold haversineMetersLonLat toRad
  have h180 : ((180 : ℝ) - 0) * Real.pi / 180 = Real.pi := by
    field_simp
  simp only [h180, sub_self, zero_mul, zero_div, Real.sin_zero, Real.cos_zero]
  rw [Real.sin_pi_div_two]
  norm_num [Real.sqrt_one, Real.arcsin_one]
  ring

/-- Claim C8 witness: an equator-spanning pair is closed with the appended
start, an all-identical pair is left unchanged, and hiking never appends. -/
theorem c8_closeLoop_witness :
    closeLoop .cycling [((0 : ℝ), (0 : ℝ)), ((180 : ℝ), (0 : ℝ))] =
        [((0 : ℝ), (0 : ℝ)), ((180 : ℝ), (0 : ℝ)), ((0 : ℝ), (0 : ℝ))] ∧
      closeLoop .cycling [((0 : ℝ), (0 : ℝ)), ((0 : ℝ), (0 : ℝ))] =
        [((0 : ℝ), (0 : ℝ)), ((0 : ℝ), (0 : ℝ))] ∧
      closeLoop .hiking [((0 : ℝ), (0 : ℝ)), ((180 : ℝ), (0 : ℝ))] =
        [((0 : ℝ), (0 : ℝ)), ((180 : ℝ), (0 : ℝ))] := by
  refine ⟨?_, ?_, ?_⟩
  · have h := (c8_closeLoop [((0 : ℝ), (0 : ℝ)), ((180 : ℝ), (0 : ℝ))] (by simp)).1
    have hd : (100 : ℝ) <
        haversineMetersLonLat
          ([((0 : ℝ), (0 : ℝ)), ((180 : ℝ), (0 : ℝ))].getD 0 (0, 0))
          ([((0 : ℝ), (0 : ℝ)), ((180 : ℝ), (0 : ℝ))].getD
            ([((0 : ℝ), (0 : ℝ)), ((180 : ℝ), (0 : ℝ))].length - 1) (0, 0)) := by
      simp only [List.length_cons, List.length_nil, List.getD]
      rw [show ([((0 : ℝ), (0 : ℝ)), ((180 : ℝ), (0 : ℝ))].get? 0).getD (0, 0) =
          ((0 : ℝ), (0 : ℝ)) from rfl,
        show (2 - 1 : ℕ) = 1 from rfl,
        show ([((0 : ℝ), (0 : ℝ)), ((180 : ℝ), (0 : ℝ))].get? 1).getD (0, 0) =
          ((180 : ℝ), (0 : ℝ)) from rfl,
        haversine_antipodal]
      have hpi := Real.pi_gt_three
      nlinarith
    simpa using h hd
  · have h := (c8_closeLoop [((0 : ℝ), (0 : ℝ)), ((0 : ℝ), (0 : ℝ))] (by simp)).2.1
    have hd : haversineMetersLonLat
          ([((0 : ℝ), (0 : ℝ)), ((0 : ℝ), (0 : ℝ))].getD 0 (0, 0))
          ([((0 : ℝ), (0 : ℝ)), ((0 : ℝ), (0 : ℝ))].getD
            ([((0 : ℝ), (0 : ℝ)), ((0 : ℝ), (0 : ℝ))].length - 1) (0, 0)) ≤ 100 := by
      simp only [List.length_cons, List.length_nil, List.getD]
      rw [show ([((0 : ℝ), (0 : ℝ)), ((0 : ℝ), (0 : ℝ))].get? 0).getD (0, 0) =
          ((0 : ℝ), (0 : ℝ)) from rfl,
        show (2 - 1 : ℕ) = 1 from rfl,
        show ([((0 : ℝ), (0 : ℝ)), ((0 : ℝ), (0 : ℝ))].get? 1).getD (0, 0) =
          ((0 : ℝ), (0 : ℝ)) from rfl,
        haversine_self]
      norm_num
    exact h hd
  · exact (c8_closeLoop [((0 : ℝ), (0 : ℝ)), ((180 : ℝ), (0 : ℝ))] (by simp)).2.2

/-! ## Helper lemmas on the synthesis building blocks -/

/-- Default route point used with `List.getD`. -/
noncomputable def dRp : RoutePoint :=
  { lat := 0, lng := 0, day := 1, order := 0 }

/-- Default daily route used with `List.getD`. -/
noncomputable def dDR : DailyRoute :=
  { day := 1, distance := 0, duration := 0, elevation := { gain := 0, loss := 0 },
    points := [] }

/-- The point builder yields one route point per geometry vertex. -/
theorem buildPoints_length (t : TripType) (s : Int) :
    ∀ (coords : List (ℝ × ℝ)) (i : ℕ), (buildPoints t s coords i).length = coords.length
  | [], _ => rfl
  | _ :: rest, i => by
    rw [buildPoints, List.length_cons, List.length_cons,
      buildPoints_length t s rest (i + 1)]

/-- Pointwise description of the built route points. -/
theorem buildPoints_getD (t : TripType) (s : Int) :
    ∀ (coords : List (ℝ × ℝ)) (i k : ℕ), k < coords.length →
      (buildPoints t s coords i).getD k dRp =
        { lat := (coords.getD k (0, 0)).2, lng := (coords.getD k (0, 0)).1,
          day := if t = .cycling then (if ((i + k : ℕ) : Int) ≤ s then 1 else 2) else 1,
          order := i + k }
  | [], _, k, hk => absurd hk (by simp)
  | c :: rest, i, 0, _ => by
    rw [buildPoints]
    simp
  | c :: rest, i, k + 1, hk => by
    rw [buildPoints]
    rw [List.getD_cons_succ, List.getD_cons_succ]
    rw [buildPoints_getD t s rest (i + 1) k (by simpa using Nat.lt_of_succ_lt_succ hk)]
    have : i + 1 + k = i + (k + 1) := by omega
    rw [this]

/-- Every built point's order is at least the starting index. -/
theorem buildPoints_order_ge (t : TripType) (s : Int) :
    ∀ (coords : List (ℝ × ℝ)) (i : ℕ), ∀ p ∈ buildPoints t s coords i, i ≤ p.order
  | [], _ => by simp [buildPoints]
  | c :: rest, i => by
    rw [buildPoints]
    intro p hp
    rcases List.mem_cons.mp hp with h | h
    · subst h
      exact le_refl _
    · exact le_trans (Nat.le_succ i) (buildPoints_order_ge t s rest (i + 1) p h)

/-- Orders increase strictly along the built point list. -/
theorem buildPoints_pairwise (t : TripType) (s : Int) :
    ∀ (coords : List (ℝ × ℝ)) (i : ℕ),
      List.Pairwise (fun a b => a.order < b.order) (buildPoints t s coords i)
  | [], _ => by simp [buildPoints]
  | c :: rest, i => by
    rw [buildPoints]
    refine List.Pairwise.cons ?_ (buildPoints_pairwise t s rest (i + 1))
    intro p hp
    have := buildPoints_order_ge t s rest (i + 1) p hp
    simp only []
    omega

/-- Hiking assigns day 1 to every built point. -/
theorem buildPoints_hiking_day (s : Int) :
    ∀ (coords : List (ℝ × ℝ)) (i : ℕ), ∀ p ∈ buildPoints .hiking s coords i, p.day = 1
  | [], _ => by simp [buildPoints]
  | c :: rest, i => by
    rw [buildPoints]
    intro p hp
    rcases List.mem_cons.mp hp with h | h
    · subst h
      simp
    · exact buildPoints_hiking_day s rest (i + 1) p h

/-- Cycling assigns day 1 or day 2 to every built point. -/
theorem buildPoints_cycling_day (s : Int) :
    ∀ (coords : List (ℝ × ℝ)) (i : ℕ), ∀ p ∈ buildPoints .cycling s coords i,
      p.day = 1 ∨ p.day = 2
  | [], _ => by simp [buildPoints]
  | c :: rest, i => by
    rw [buildPoints]
    intro p hp
    rcases List.mem_cons.mp hp with h | h
    · subst h
      by_cases hle : (i : Int) ≤ s
      · left
        simp [hle]
      · right
        simp [hle]
    · exact buildPoints_cycling_day s rest (i + 1) p h

/-- Once the index passes the split, every built point gets day 2. -/
theorem buildPoints_day2_of_lt (s : Int) :
    ∀ (coords : List (ℝ × ℝ)) (i : ℕ), s < (i : Int) →
      ∀ p ∈ buildPoints .cycling s coords i, p.day = 2
  | [], _, _ => by simp [buildPoints]
  | c :: rest, i, hi => by
    rw [buildPoints]
    intro p hp
    rcases List.mem_cons.mp hp with h | h
    · subst h
      simp [not_le.mpr hi]
    · exact buildPoints_day2_of_lt s rest (i + 1) (by omega) p h

/-- For a nonnegative split index, the day-1 points are exactly the prefix of
the built list up to the split position. -/
theorem buildPoints_filter_day1 (s : Int) (hs : 0 ≤ s) :
    ∀ (coords : List (ℝ × ℝ)) (i : ℕ),
      (buildPoints .cycling s coords i).filter (fun p => p.day == 1) =
        (buildPoints .cycling s coords i).take (s.toNat + 1 - i)
  | [], _ => by simp [buildPoints]
  | c :: rest, i => by
    rw [buildPoints]
    by_cases hle : (i : Int) ≤ s
    · have harith : s.toNat + 1 - i = (s.toNat - i) + 1 := by omega
      have ih := buildPoints_filter_day1 s hs rest (i + 1)
      have h2 : s.toNat + 1 - (i + 1) = s.toNat - i := by omega
      rw [h2] at ih
      rw [harith]
      simp [List.filter_cons, List.take_succ_cons, hle, ih]
    · have hz : s.toNat + 1 - i = 0 := by omega
      rw [hz, List.take_zero, List.filter_eq_nil_iff]
      intro p hp
      have := buildPoints_day2_of_lt s (c :: rest) i (by omega) p (by rw [buildPoints]; exact hp)
      simp [this]

/-- For a nonnegative split index, the day-2 points are exactly the suffix of
the built list past the split position. -/
theorem buildPoints_filter_day2 (s : Int) (hs : 0 ≤ s) :
    ∀ (coords : List (ℝ × ℝ)) (i : ℕ),
      (buildPoints .cycling s coords i).filter (fun p => p.day == 2) =
        (buildPoints .cycling s coords i).drop (s.toNat + 1 - i)
  | [], _ => by simp [buildPoints]
  | c :: rest, i => by
    rw [buildPoints]
    by_cases hle : (i : Int) ≤ s
    · have harith : s.toNat + 1 - i = (s.toNat - i) + 1 := by omega
      have ih := buildPoints_filter_day2 s hs rest (i + 1)
      have h2 : s.toNat + 1 - (i + 1) = s.toNat - i := by omega
      rw [h2] at ih
      rw [harith]
      simp [List.filter_cons, List.drop_succ_cons, hle, ih]
    · have hz : s.toNat + 1 - i = 0 := by omega
      rw [hz, List.drop_zero, List.filter_eq_self]
      intro p hp
      have := buildPoints_day2_of_lt s (c :: rest) i (by omega) p (by rw [buildPoints]; exact hp)
      simp [this]

/-- The clamp `Math.max(1, ...)` makes the `-1` check downstream dead code:
the split index is always the clamped find result. -/
theorem splitIndex_eq (cum : List ℝ) (total : ℝ) (n : ℕ) :
    splitIndex cum total n = max 1 (findIdxGe (total / 2) cum) := by
  unfold splitIndex
  rw [if_neg]
  have h1 : (1 : Int) ≤ max 1 (findIdxGe (total / 2) cum) := le_max_left _ _
  omega

/-- The split index is never below 1. -/
theorem one_le_splitIndex (cum : List ℝ) (total : ℝ) (n : ℕ) :
    1 ≤ splitIndex cum total n := by
  rw [splitIndex_eq]
  exact le_max_left _ _

/-- Characterisation of the find on the first qualifying index. -/
theorem findIdxGe_eq_of_first (target : ℝ) :
    ∀ (l : List ℝ) (j : ℕ), j < l.length → target ≤ l.getD j 0 →
      (∀ k, k < j → l.getD k 0 < target) → findIdxGe target l = j
  | [], j, hj, _, _ => absurd hj (by simp)
  | v :: rest, 0, _, hge, _ => by
    rw [findIdxGe]
    rw [if_pos (by simpa using hge)]
    simp
  | v :: rest, j + 1, hj, hge, hfirst => by
    rw [findIdxGe]
    rw [if_neg (by simpa using not_le.mpr (hfirst 0 (Nat.succ_pos j)))]
    have ih := findIdxGe_eq_of_first target rest j (by simpa using Nat.lt_of_succ_lt_succ hj)
      (by simpa using hge) (fun k hk => by simpa using hfirst (k + 1) (by omega))
    simp only [ih]
    rw [if_neg (by omega)]
    omega

/-- Characterisation of the find when no element qualifies. -/
theorem findIdxGe_eq_neg_one (target : ℝ) :
    ∀ l : List ℝ, (∀ j, j < l.length → l.getD j 0 < target) → findIdxGe target l = -1
  | [], _ => rfl
  | v :: rest, h => by
    rw [findIdxGe]
    rw [if_neg (by simpa using not_le.mpr (h 0 (by simp)))]
    have ih := findIdxGe_eq_neg_one target rest
      (fun j hj => by simpa using h (j + 1) (by simpa using Nat.succ_lt_succ hj))
    simp [ih]

/-- Helper: `getD` commutes with `take` below the cut. -/
theorem getD_take_of_lt {α : Type} (l : List α) (n k : ℕ) (h : k < n) (d : α) :
    (l.take n).getD k d = l.getD k d := by
  rw [List.getD_eq_getElem?_getD, List.getD_eq_getElem?_getD, List.getElem?_take,
    if_pos h]

/-! ## Claim C5 -/

/-- Claim C5 (confirmed): for a cycling synthesis, the day-1 and day-2 point
lists concatenate back to the full point list (each vertex lands in exactly
one day), every point's day is 1 or 2, the point at index `k` has day 1
exactly when `k` is at or before the split index and carries `order = k` and
the corresponding geometry vertex; for hiking every point has day 1; and the
orders are strictly increasing across the concatenated daily points. -/
theorem c5_day_partition (f : Feature) (k : ℕ)
    (hk : k < (synthesizeRoute .cycling f).points.length) :
    ((synthesizeRoute .cycling f).dailyRoutes.getD 0 dDR).points ++
        ((synthesizeRoute .cycling f).dailyRoutes.getD 1 dDR).points =
      (synthesizeRoute .cycling f).points ∧
    (∀ p ∈ (synthesizeRoute .cycling f).points, p.day = 1 ∨ p.day = 2) ∧
    ((synthesizeRoute .cycling f).points.getD k dRp).day =
      (if (k : Int) ≤ synthSplitIdx f then 1 else 2) ∧
    ((synthesizeRoute .cycling f).points.getD k dRp).order = k ∧
    ((synthesizeRoute .cycling f).points.getD k dRp).lat =
      (f.coordinates.getD k (0, 0)).2 ∧
    ((synthesizeRoute .cycling f).points.getD k dRp).lng =
      (f.coordinates.getD k (0, 0)).1 ∧
    (∀ p ∈ (synthesizeRoute .hiking f).points, p.day = 1) ∧
    List.Pairwise (fun a b => a.order < b.order)
      (((synthesizeRoute .cycling f).dailyRoutes.getD 0 dDR).points ++
        ((synthesizeRoute .cycling f).dailyRoutes.getD 1 dDR).points) := by
  have hs1 : 1 ≤ synthSplitIdx f := one_le_splitIndex _ _ _
  have hs0 : 0 ≤ synthSplitIdx f := by omega
  have hpts : (synthesizeRoute .cycling f).points =
      buildPoints .cycling (synthSplitIdx f) f.coordinates 0 := rfl
  have hd1 : ((synthesizeRoute .cycling f).dailyRoutes.getD 0 dDR).points =
      (buildPoints .cycling (synthSplitIdx f) f.coordinates 0).filter
        (fun p => p.day == 1) := by
    show ((synthDailyRoutes .cycling f).getD 0 dDR).points = _
    unfold synthDailyRoutes
    rw [if_pos rfl, List.getD_cons_zero]
    rfl
  have hd2 : ((synthesizeRoute .cycling f).dailyRoutes.getD 1 dDR).points =
      (buildPoints .cycling (synthSplitIdx f) f.coordinates 0).filter
        (fun p => p.day == 2) := by
    show ((synthDailyRoutes .cycling f).getD 1 dDR).points = _
    unfold synthDailyRoutes
    rw [if_pos rfl]
    rw [show (1 : ℕ) = 0 + 1 from rfl, List.getD_cons_succ, List.getD_cons_zero]
    rfl
  have hcat : ((synthesizeRoute .cycling f).dailyRoutes.getD 0 dDR).points ++
      ((synthesizeRoute .cycling f).dailyRoutes.getD 1 dDR).points =
        (synthesizeRoute .cycling f).points := by
    rw [hd1, hd2, hpts,
      buildPoints_filter_day1 (synthSplitIdx f) hs0 f.coordinates 0,
      buildPoints_filter_day2 (synthSplitIdx f) hs0 f.coordinates 0]
    exact List.take_append_drop _ _
  have hk' : k < f.coordinates.length := by
    rw [hpts, buildPoints_length] at hk
    exact hk
  have hget := buildPoints_getD .cycling (synthSplitIdx f) f.coordinates 0 k hk'
  refine ⟨hcat, ?_, ?_, ?_, ?_, ?_, ?_, ?_⟩
  · intro p hp
    rw [hpts] at hp
    exact buildPoints_cycling_day (synthSplitIdx f) f.coordinates 0 p hp
  · rw [hpts, hget]
    simp
  · rw [hpts, hget]
    simp
  · rw [hpts, hget]
  · rw [hpts, hget]
  · intro p hp
    exact buildPoints_hiking_day (synthSplitIdx f) f.coordinates 0 p hp
  · rw [hcat, hpts]
    exact buildPoints_pairwise _ _ _ _

/-- Claim C5 witness: a concrete three-vertex degenerate geometry. -/
noncomputable def c5Feature : Feature :=
  { coordinates := [((0 : ℝ), (0 : ℝ)), ((0 : ℝ), (0 : ℝ)), ((0 : ℝ), (0 : ℝ))],
    summaryDistance := none, summaryDuration := none, ascent := none,
    descent := none }

/-- Claim C5 witness: the theorem evaluated at the concrete feature and
index 0. -/
theorem c5_day_partition_witness :
    ((synthesizeRoute .cycling c5Feature).dailyRoutes.getD 0 dDR).points ++
        ((synthesizeRoute .cycling c5Feature).dailyRoutes.getD 1 dDR).points =
      (synthesizeRoute .cycling c5Feature).points ∧
    ((synthesizeRoute .cycling c5Feature).points.getD 0 dRp).order = 0 := by
  have h := c5_day_partition c5Feature 0
    (by rw [show (synthesizeRoute .cycling c5Feature).points =
        buildPoints .cycling (synthSplitIdx c5Feature) c5Feature.coordinates 0 from rfl,
      buildPoints_length]
        simp [c5Feature])
  exact ⟨h.1, h.2.2.2.1⟩

/-! ## Claim C6 -/

/-- Claim C6 (confirmed): for every cycling synthesis over a geometry with
at least two vertices — the domain on which the JS `cum[splitIdx]` read is
in range — the two daily distances, durations, elevation gains and losses
sum exactly to the route totals, and each day's duration and elevation is
the service-reported total scaled by that day's distance fraction. -/
theorem c6_proportional_conservation (f : Feature)
    (h2 : 2 ≤ f.coordinates.length) :
    ((synthesizeRoute .cycling f).dailyRoutes.getD 0 dDR).distance +
        ((synthesizeRoute .cycling f).dailyRoutes.getD 1 dDR).distance =
      (synthesizeRoute .cycling f).totalDistance ∧
    ((synthesizeRoute .cycling f).dailyRoutes.getD 0 dDR).duration +
        ((synthesizeRoute .cycling f).dailyRoutes.getD 1 dDR).duration =
      (synthesizeRoute .cycling f).totalDuration ∧
    ((synthesizeRoute .cycling f).dailyRoutes.getD 0 dDR).elevation.gain +
        ((synthesizeRoute .cycling f).dailyRoutes.getD 1 dDR).elevation.gain =
      (synthesizeRoute .cycling f).totalElevation.gain ∧
    ((synthesizeRoute .cycling f).dailyRoutes.getD 0 dDR).elevation.loss +
        ((synthesizeRoute .cycling f).dailyRoutes.getD 1 dDR).elevation.loss =
      (synthesizeRoute .cycling f).totalElevation.loss ∧
    ((synthesizeRoute .cycling f).dailyRoutes.getD 0 dDR).duration =
      synthTotalSec f * synthDay1Frac .cycling f / 3600 ∧
    ((synthesizeRoute .cycling f).dailyRoutes.getD 1 dDR).duration =
      synthTotalSec f * synthDay2Frac .cycling f / 3600 ∧
    ((synthesizeRoute .cycling f).dailyRoutes.getD 0 dDR).elevation.gain =
      synthAscent f * synthDay1Frac .cycling f ∧
    ((synthesizeRoute .cycling f).dailyRoutes.getD 1 dDR).elevation.gain =
      synthAscent f * synthDay2Frac .cycling f ∧
    ((synthesizeRoute .cycling f).dailyRoutes.getD 0 dDR).elevation.loss =
      synthDescent f * synthDay1Frac .cycling f ∧
    ((synthesizeRoute .cycling f).dailyRoutes.getD 1 dDR).elevation.loss =
      synthDescent f * synthDay2Frac .cycling f := by
  have hd1 : (synthesizeRoute .cycling f).dailyRoutes.getD 0 dDR =
      { day := 1,
        distance := synthDay1Meters .cycling f / 1000,
        duration := synthTotalSec f * synthDay1Frac .cycling f / 3600,
        elevation := { gain := synthAscent f * synthDay1Frac .cycling f,
                       loss := synthDescent f * synthDay1Frac .cycling f },
        points := (synthPoints .cycling f).filter (fun p => p.day == 1) } := by
    show (synthDailyRoutes .cycling f).getD 0 dDR = _
    unfold synthDailyRoutes
    rw [if_pos rfl, List.getD_cons_zero]
  have hd2 : (synthesizeRoute .cycling f).dailyRoutes.getD 1 dDR =
      { day := 2,
        distance := synthDay2Meters .cycling f / 1000,
        duration := synthTotalSec f * synthDay2Frac .cycling f / 3600,
        elevation := { gain := synthAscent f * synthDay2Frac .cycling f,
                       loss := synthDescent f * synthDay2Frac .cycling f },
        points := (synthPoints .cycling f).filter (fun p => p.day == 2) } := by
    show (synthDailyRoutes .cycling f).getD 1 dDR = _
    unfold synthDailyRoutes
    rw [if_pos rfl]
    rw [show (1 : ℕ) = 0 + 1 from rfl, List.getD_cons_succ, List.getD_cons_zero]
  rw [hd1, hd2]
  have h2m : synthDay2Meters .cycling f = synthTotalMeters f - synthDay1Meters .cycling f := by
    unfold synthDay2Meters
    rw [if_pos rfl]
  have h2f : synthDay2Frac .cycling f = 1 - synthDay1Frac .cycling f := rfl
  refine ⟨?_, ?_, ?_, ?_, rfl, rfl, rfl, rfl, rfl, rfl⟩
  · show synthDay1Meters .cycling f / 1000 + synthDay2Meters .cycling f / 1000 =
      synthTotalMeters f / 1000
    rw [h2m]
    ring
  · show synthTotalSec f * synthDay1Frac .cycling f / 3600 +
        synthTotalSec f * synthDay2Frac .cycling f / 3600 = synthTotalSec f / 3600
    rw [h2f]
    ring
  · show synthAscent f * synthDay1Frac .cycling f +
        synthAscent f * synthDay2Frac .cycling f = synthAscent f
    rw [h2f]
    ring
  · show synthDescent f * synthDay1Frac .cycling f +
        synthDescent f * synthDay2Frac .cycling f = synthDescent f
    rw [h2f]
    ring

/-- Claim C6 witness: the conservation equalities evaluated at the concrete
three-vertex feature. -/
theorem c6_proportional_conservation_witness :
    ((synthesizeRoute .cycling c5Feature).dailyRoutes.getD 0 dDR).distance +
        ((synthesizeRoute .cycling c5Feature).dailyRoutes.getD 1 dDR).distance =
      (synthesizeRoute .cycling c5Feature).totalDistance ∧
    ((synthesizeRoute .cycling c5Feature).dailyRoutes.getD 0 dDR).duration +
        ((synthesizeRoute .cycling c5Feature).dailyRoutes.getD 1 dDR).duration =
      (synthesizeRoute .cycling c5Feature).totalDuration := by
  have h := c6_proportional_conservation c5Feature (by simp [c5Feature])
  exact ⟨h.1, h.2.1⟩

/-! ## Claim C10 -/

/-- Claim C10 (confirmed): for any geometry with at least two vertices the
split index is clamped to at least 1, so the cycling day-1 route always
contains at least the first two geometry vertices (in particular the points
at indices 0 and 1 of the full path). -/
theorem c10_day1_has_two_points (f : Feature) (h2 : 2 ≤ f.coordinates.length) :
    1 ≤ synthSplitIdx f ∧
    2 ≤ ((synthesizeRoute .cycling f).dailyRoutes.getD 0 dDR).points.length ∧
    ((synthesizeRoute .cycling f).dailyRoutes.getD 0 dDR).points.getD 0 dRp =
      (synthesizeRoute .cycling f).points.getD 0 dRp ∧
    ((synthesizeRoute .cycling f).dailyRoutes.getD 0 dDR).points.getD 1 dRp =
      (synthesizeRoute .cycling f).points.getD 1 dRp := by
  have hs1 : 1 ≤ synthSplitIdx f := one_le_splitIndex _ _ _
  have hs0 : 0 ≤ synthSplitIdx f := by omega
  have htn : 1 ≤ (synthSplitIdx f).toNat := by omega
  have hpts : (synthesizeRoute .cycling f).points =
      buildPoints .cycling (synthSplitIdx f) f.coordinates 0 := rfl
  have hd1 : ((synthesizeRoute .cycling f).dailyRoutes.getD 0 dDR).points =
      (buildPoints .cycling (synthSplitIdx f) f.coordinates 0).filter
        (fun p => p.day == 1) := by
    show ((synthDailyRoutes .cycling f).getD 0 dDR).points = _
    unfold synthDailyRoutes
    rw [if_pos rfl, List.getD_cons_zero]
    rfl
  have htake : ((synthesizeRoute .cycling f).dailyRoutes.getD 0 dDR).points =
      (buildPoints .cycling (synthSplitIdx f) f.coordinates 0).take
        ((synthSplitIdx f).toNat + 1) := by
    rw [hd1, buildPoints_filter_day1 (synthSplitIdx f) hs0 f.coordinates 0,
      Nat.sub_zero]
  have hlen : (buildPoints .cycling (synthSplitIdx f) f.coordinates 0).length =
      f.coordinates.length := buildPoints_length _ _ _ _
  refine ⟨hs1, ?_, ?_, ?_⟩
  · rw [htake, List.length_take, hlen]
    omega
  · rw [htake, hpts, getD_take_of_lt _ _ _ (by omega)]
  · rw [htake, hpts, getD_take_of_lt _ _ _ (by omega)]

/-- Claim C10 witness: the theorem applied at the concrete three-vertex
feature. -/
theorem c10_day1_has_two_points_witness :
    1 ≤ synthSplitIdx c5Feature ∧
      2 ≤ ((synthesizeRoute .cycling c5Feature).dailyRoutes.getD 0 dDR).points.length := by
  have h := c10_day1_has_two_points c5Feature (by simp [c5Feature])
  exact ⟨h.1, h.2.1⟩

/-! ## Claim C7 -/

/-- Claim C7 (amended form, proved): the split index is `max 1 j` where `j`
is the first vertex index whose cumulative distance reaches half the total;
when no vertex qualifies the split index is 1 — not the midpoint
`floor(n/2)` the spec names, because `Math.max(1, ...)` runs before the
`=== -1` test and makes the midpoint-default branch unreachable. -/
theorem c7_split_amended (cum : List ℝ) (total : ℝ) (n : ℕ) :
    (∀ j : ℕ, j < cum.length → total / 2 ≤ cum.getD j 0 →
      (∀ k, k < j → cum.getD k 0 < total / 2) →
      splitIndex cum total n = max 1 (j : Int)) ∧
    ((∀ j, j < cum.length → cum.getD j 0 < total / 2) →
      splitIndex cum total n = 1) := by
  constructor
  · intro j hj hge hfirst
    rw [splitIndex_eq, findIdxGe_eq_of_first (total / 2) cum j hj hge hfirst]
  · intro hnone
    rw [splitIndex_eq, findIdxGe_eq_neg_one (total / 2) cum hnone]
    rfl

/-- Concrete feature refuting the claimed midpoint default: six identical
vertices (so every cumulative distance is 0) with a service-reported total of
1000 m.  No vertex reaches the half distance 500, and `floor(6/2) = 3`, yet
the code's split index is 1. -/
noncomputable def c7Feature : Feature :=
  { coordinates := [((0 : ℝ), (0 : ℝ)), ((0 : ℝ), (0 : ℝ)), ((0 : ℝ), (0 : ℝ)),
      ((0 : ℝ), (0 : ℝ)), ((0 : ℝ), (0 : ℝ)), ((0 : ℝ), (0 : ℝ))],
    summaryDistance := some 1000, summaryDuration := none, ascent := none,
    descent := none }

/-- Helper: the cumulative distances of the six identical vertices are all
zero. -/
theorem c7_cum_eval :
    cumDistances c7Feature.coordinates =
      [(0 : ℝ), 0, 0, 0, 0, 0] := by
  show cumDistances [((0 : ℝ), (0 : ℝ)), ((0 : ℝ), (0 : ℝ)), ((0 : ℝ), (0 : ℝ)),
      ((0 : ℝ), (0 : ℝ)), ((0 : ℝ), (0 : ℝ)), ((0 : ℝ), (0 : ℝ))] = _
  simp [cumDistances, cumAux, haversine_self]

/-- Helper: the half-distance search finds no qualifying vertex at the
counterexample feature. -/
theorem c7_findIdx_eval :
    findIdxGe (synthTotalGeom c7Feature / 2) (cumDistances c7Feature.coordinates) = -1 := by
  have htotal : synthTotalGeom c7Feature = 1000 := by
    unfold synthTotalGeom
    rw [c7_cum_eval]
    simp [jsOr, c7Feature]
  rw [c7_cum_eval, htotal]
  apply findIdxGe_eq_neg_one
  intro j hj
  simp only [List.length_cons, List.length_nil] at hj
  interval_cases j <;> norm_num [List.getD]

/-- Claim C7 counterexample: at the six-identical-vertex feature with total
1000 m no vertex meets the half-distance threshold, the claimed default
`floor(n/2)` is 3, but the code's split index is 1. -/
theorem c7_split_counterexample :
    findIdxGe (synthTotalGeom c7Feature / 2) (cumDistances c7Feature.coordinates) = -1 ∧
    synthSplitIdx c7Feature = 1 ∧
    c7Feature.coordinates.length / 2 = 3 ∧
    ((1 : Int) ≠ ((c7Feature.coordinates.length / 2 : ℕ) : Int)) := by
  refine ⟨c7_findIdx_eval, ?_, ?_, ?_⟩
  · show splitIndex (cumDistances c7Feature.coordinates) (synthTotalGeom c7Feature)
      c7Feature.coordinates.length = 1
    rw [splitIndex_eq, c7_findIdx_eval]
    rfl
  · rfl
  · show (1 : Int) ≠ ((6 / 2 : ℕ) : Int)
    norm_num

/-- Claim C7 witness for the amended theorem: with cumulative distances
`[0, 500, 1000]` and total 1000 the first qualifying vertex is index 1 and
the split index is `max 1 1 = 1`; with the single cumulative distance `[0]`
and total 1000 nothing qualifies and the split index is 1. -/
theorem c7_split_amended_witness :
    splitIndex [(0 : ℝ), 500, 1000] 1000 17 = 1 ∧
      splitIndex [(0 : ℝ)] 1000 4 = 1 := by
  constructor
  · have h := (c7_split_amended [(0 : ℝ), 500, 1000] 1000 17).1 1
      (by simp)
      (by norm_num [List.getD])
      (by
        intro k hk
        interval_cases k
        norm_num [List.getD])
    simpa using h
  · exact (c7_split_amended [(0 : ℝ)] 1000 4).2
      (by
        intro j hj
        simp only [List.length_cons, List.length_nil] at hj
        interval_cases j
        norm_num [List.getD])

/-! ## Claim C9 -/

/-- Claim C9 (confirmed): extraction tries direct parse, then the
brace-extracted substring, then the repaired text, in that order, the first
success winning; and when every attempt's generation or extraction fails the
proposer performs exactly three attempts separated by the fixed 1000 ms
delay and returns null. -/
theorem c9_parse_stage_order {J : Type} (llm : ℕ → Option String)
    (parse : String → Option J) :
    (∀ content r, parse content = some r → parseStages parse content = some r) ∧
    (∀ content m r, parse content = none → extractBraceSubstring content = some m →
      parse m = some r → parseStages parse content = some r) ∧
    (∀ content, parse content = none →
      (∀ m, extractBraceSubstring content = some m → parse m = none) →
      parseStages parse content = parse (fixJsonIssues content)) ∧
    ((∀ a, a ∈ ([1, 2, 3] : List ℕ) → aiFail llm parse a) →
      generateRouteWithAI llm parse =
        (none, [AiEv.llmCall 1, AiEv.sleep 1000, AiEv.llmCall 2, AiEv.sleep 1000,
          AiEv.llmCall 3])) := by
  refine ⟨?_, ?_, ?_, ?_⟩
  · intro content r h
    unfold parseStages
    rw [h]
  · intro content m r hc hm hr
    unfold parseStages
    rw [hc, hm]
    show (match parse m with
      | some r => some r
      | none => parse (fixJsonIssues content)) = some r
    rw [hr]
  · intro content hc hall
    unfold parseStages
    rw [hc]
    cases hx : extractBraceSubstring content with
    | none => rfl
    | some m =>
      show (match parse m with
        | some r => some r
        | none => parse (fixJsonIssues content)) = parse (fixJsonIssues content)
      rw [hall m hx]
  · intro h
    have step : ∀ (a : ℕ) (rest : List ℕ), aiFail llm parse a →
        aiAttempts llm parse (a :: rest) =
          (if rest.isEmpty then ((none, [AiEv.llmCall a]) : Option J × List AiEv)
          else ((aiAttempts llm parse rest).1,
            AiEv.llmCall a :: AiEv.sleep 1000 :: (aiAttempts llm parse rest).2)) := by
      intro a rest hfail
      unfold aiFail at hfail
      cases hl : llm a with
      | none => simp only [aiAttempts, hl]
      | some raw =>
        rw [hl] at hfail
        simp only [aiAttempts, hl]
        by_cases he : raw.trim = ""
        · rw [if_pos he]
        · rw [if_neg he]
          rcases hfail with he2 | hp
          · exact absurd he2 he
          · rw [hp]
    unfold generateRouteWithAI
    rw [step 1 [2, 3] (h 1 (by simp)), step 2 [3] (h 2 (by simp)),
      step 3 [] (h 3 (by simp))]
    simp

/-- Claim C9 witness: with an LLM stub that always errs the proposer makes
exactly three calls and returns null; with a parser stub that always
succeeds, the first stage wins immediately. -/
theorem c9_parse_stage_order_witness :
    generateRouteWithAI (fun _ => none) (fun _ : String => (none : Option Unit)) =
      (none, [AiEv.llmCall 1, AiEv.sleep 1000, AiEv.llmCall 2, AiEv.sleep 1000,
        AiEv.llmCall 3]) ∧
    parseStages (fun _ : String => (some () : Option Unit)) "x" = some () := by
  constructor
  · exact (c9_parse_stage_order (fun _ => none)
      (fun _ : String => (none : Option Unit))).2.2.2 (fun a _ => trivial)
  · exact (c9_parse_stage_order (fun _ => none)
      (fun _ : String => (some () : Option Unit))).1 "x" () rfl

end TripPlanner
